import Mathlib

/-!
DirectEcs, `Core/Application.cpp`

A shallow embedding of `DirectEcs::Application` (device selection and creation,
command-queue ownership, window creation, the message pump and shutdown) and
the properties established about it.

Modelling conventions.

* Native calls whose result the source inspects (`ThrowIfFailed`, `SUCCEEDED`,
  `!::RegisterClassExW`, `!windowHandle`, `PeekMessage`) take their result from
  an environment record `Env` or from the polled message stream.
* The calls of `Application.cpp` that create, release or drive an object, show
  a message box or pump a message are appended, in program order, to a trace
  of `Event`s. Queries that only yield a value (factory creation, adapter
  enumeration and probing, `GetDesc1`, `LoadIcon`, `LoadCursor`,
  `AdjustWindowRect`) are represented by that value.
* `std::make_unique` and a successful `D3D12CreateDevice` give the new object
  a fresh identity (an allocation serial number); a `unique_ptr` or `ComPtr`
  member is an `Option`.
* Calls into `CommandQueue`, `Window` and `Logger` (their bodies are not part
  of `Application.cpp`) are recorded as events and return normally.
* Dereferencing a null member is reported as `Failure.nullDereference`.
-/

namespace DirectEcs

/-! ## Native types and constants -/

/-- Windows `HRESULT`: a signed 32-bit status code. -/
abbrev HRESULT := Int

/-- The `FAILED` test of `winerror.h`: `hr < 0`. -/
def FAILED (hr : HRESULT) : Bool := decide (hr < 0)

/-- The `SUCCEEDED` test of `winerror.h`: `hr >= 0`. -/
def SUCCEEDED (hr : HRESULT) : Bool := decide (0 ≤ hr)

/-- The flag `DXGI_ADAPTER_FLAG_SOFTWARE` of `dxgi.h`. -/
def DXGI_ADAPTER_FLAG_SOFTWARE : Nat := 2

/-- The message identifier `WM_QUIT` of `winuser.h`. -/
def WM_QUIT : Nat := 0x0012

/-- The exit status `EXIT_FAILURE` of `cstdlib`. -/
def EXIT_FAILURE : Int := 1

/-- The enumerators of `D3D12_COMMAND_LIST_TYPE` (`d3d12.h`). -/
inductive D3D12_COMMAND_LIST_TYPE
  | DIRECT
  | BUNDLE
  | COMPUTE
  | COPY
  | VIDEO_DECODE
  | VIDEO_PROCESS
  | VIDEO_ENCODE
  deriving DecidableEq, Repr

/-- What `Application.cpp` reads of an enumerated DXGI adapter: the two
`DXGI_ADAPTER_DESC1` fields it inspects, the result of the device-creation
probe `D3D12CreateDevice(adapter, D3D_FEATURE_LEVEL_11_0, uuid, nullptr)` on
it and the result of `adapter1.As(&adapter4)` on it. -/
structure Adapter where
  Flags : Nat
  DedicatedVideoMemory : Nat
  probe : HRESULT
  asAdapter4 : HRESULT
  deriving DecidableEq, Repr

/-- A Windows `RECT`. -/
structure RECT where
  left : Int
  top : Int
  right : Int
  bottom : Int
  deriving DecidableEq, Repr

/-- The fields of a Windows `MSG` read by `Exec`. -/
structure MSG where
  message : Nat
  wParam : Nat
  lParam : Int
  deriving DecidableEq, Repr

/-- The C cast `(int)x` of an unsigned value: the low 32 bits, read as a signed
two's-complement number. -/
def toInt (x : Nat) : Int :=
  if x % 2 ^ 32 < 2 ^ 31 then (x % 2 ^ 32 : Nat) else ((x % 2 ^ 32 : Nat) : Int) - 2 ^ 32

/-- The C cast `(LONG)x` of a `uint32_t`. -/
def toLONG (x : Nat) : Int := toInt x

/-! ## Failures -/

/-- The ways a call can leave by other means than returning. -/
inductive Failure
  | hresult (hr : HRESULT)
  | nullDereference
  | assertion
  deriving DecidableEq, Repr

deriving instance DecidableEq for Except

/-- Modelled from the spec: `ThrowIfFailed` of `Util/Helper.h`, which is not
among the sources. The spec says a failed native call "immediately aborts
startup; there is no recovery path": a failed `HRESULT` leaves the caller with
a failure carrying it, a successful one returns. -/
def ThrowIfFailed (hr : HRESULT) : Except Failure Unit :=
  if FAILED hr then .error (.hresult hr) else .ok ()

/-! ## The environment of one call -/

/-- The build configuration and the results of the native calls made during
one call into `Application`. -/
structure Env where
  /-- Whether `_DEBUG` is defined. -/
  debug : Bool
  /-- Whether `NDEBUG` is defined (`assert` compiled out). -/
  ndebug : Bool
  /-- Result of `D3D12GetDebugInterface`. -/
  getDebugInterface : HRESULT
  /-- Result of `CreateDXGIFactory2`. -/
  createFactory : HRESULT
  /-- Result of `factory->EnumWarpAdapter`. -/
  enumWarpAdapter : HRESULT
  /-- The adapter `EnumWarpAdapter` yields. -/
  warpAdapter : Adapter
  /-- The adapters `factory->EnumAdapters1(i, ..)` yields for `i = 0, 1, ..`
  before it answers `DXGI_ERROR_NOT_FOUND`. -/
  adapters : List Adapter
  /-- Result of `D3D12CreateDevice(adapter, D3D_FEATURE_LEVEL_11_0, &d3d12Device_)`;
  `none` is the null adapter. -/
  createDevice : Option Adapter → HRESULT
  /-- Result of `d3d12Device_.As(&infoQueue)`. -/
  infoQueueAs : HRESULT
  /-- Result of `infoQueue->PushStorageFilter`. -/
  pushStorageFilter : HRESULT
  /-- The `ATOM` returned by `RegisterClassExW` (`0` on failure). -/
  registerClass : Nat
  /-- What `AdjustWindowRect` makes of the client rectangle. -/
  adjustWindowRect : RECT → RECT
  /-- The `HWND` returned by `CreateWindowW` (`0` is null). -/
  createWindow : Nat

/-! ## Adapter selection -/

/-- The first two conjuncts of the test in the enumeration loop of
`GetAdapter_`: the adapter is not software-flagged and passes the device
creation probe. -/
def eligible (a : Adapter) : Bool :=
  (a.Flags &&& DXGI_ADAPTER_FLAG_SOFTWARE == 0) && SUCCEEDED a.probe

/-- The `for` loop of `GetAdapter_` over the remaining adapters, with the
current values of `maxDedicatedVideoMemory` and `adapter4`. -/
def enumerateAdapters :
    List Adapter → Nat → Option Adapter → Except Failure (Option Adapter)
  | [], _, adapter4 => .ok adapter4
  | adapter1 :: rest, maxDedicatedVideoMemory, adapter4 =>
    if (adapter1.Flags &&& DXGI_ADAPTER_FLAG_SOFTWARE == 0)
        && SUCCEEDED adapter1.probe
        && decide (adapter1.DedicatedVideoMemory > maxDedicatedVideoMemory) then
      match ThrowIfFailed adapter1.asAdapter4 with
      | .error f => .error f
      | .ok () => enumerateAdapters rest adapter1.DedicatedVideoMemory (some adapter1)
    else
      enumerateAdapters rest maxDedicatedVideoMemory adapter4

/-- `Application::GetAdapter_`. The returned option is the `ComPtr`
`adapter4` (`none` is null). -/
def GetAdapter_ (env : Env) (useWarp : Bool) : Except Failure (Option Adapter) :=
  match ThrowIfFailed env.createFactory with
  | .error f => .error f
  | .ok () =>
    if useWarp then
      match ThrowIfFailed env.enumWarpAdapter with
      | .error f => .error f
      | .ok () =>
        match ThrowIfFailed env.warpAdapter.asAdapter4 with
        | .error f => .error f
        | .ok () => .ok (some env.warpAdapter)
    else
      enumerateAdapters env.adapters 0 none

/-! ## Objects, events and state -/

/-- The severities passed to `SetBreakOnSeverity`. -/
inductive D3D12_MESSAGE_SEVERITY
  | CORRUPTION
  | ERROR
  | WARNING
  deriving DecidableEq, Repr

/-- A `CommandQueue` object: its identity and the type it was constructed
with. -/
structure CommandQueue where
  id : Nat
  type : D3D12_COMMAND_LIST_TYPE
  deriving DecidableEq, Repr

/-- A `Window` object: its identity and the constructor arguments. -/
structure Window where
  id : Nat
  windowHandle : Nat
  clientWidth : Nat
  clientHeight : Nat
  useVsync : Bool
  deriving DecidableEq, Repr

/-- The `ID3D12Device2` behind `d3d12Device_`: its identity and the adapter
it was created on. -/
structure Device where
  id : Nat
  adapter : Option Adapter
  deriving DecidableEq, Repr

/-- The calls with an outside effect made by the code of `Application.cpp`. -/
inductive Event
  | SetThreadDpiAwarenessContext
  | EnableDebugLayer
  | D3D12CreateDevice (adapter : Option Adapter) (hr : HRESULT)
  | ReleaseDevice (device : Device)
  | SetBreakOnSeverity (severity : D3D12_MESSAGE_SEVERITY)
  | PushStorageFilter (hr : HRESULT)
  | CommandQueueCtor (queue : CommandQueue)
  | CommandQueueDtor (queue : CommandQueue)
  | CommandQueueFlush (queue : CommandQueue)
  | RegisterClassExW (atom : Nat)
  | MessageBoxA (lpText : String) (lpCaption : String)
  | CreateWindowW (lpWindowName : String) (nWidth : Int) (nHeight : Int) (hInstance : Nat)
      (handle : Nat)
  | WindowCtor (window : Window)
  | WindowDtor (window : Window)
  | WindowStart (window : Window)
  | WindowDestroy (window : Window)
  | LoggerInit
  | PeekMessage (msg : Option MSG)
  | TranslateMessage (msg : MSG)
  | DispatchMessage (msg : MSG)
  deriving DecidableEq, Repr

/-- The data members of `Application` used in `Application.cpp`. -/
structure Application where
  d3d12Device_ : Option Device
  directCommandQueue_ : Option CommandQueue
  computeCommandQueue_ : Option CommandQueue
  copyCommandQueue_ : Option CommandQueue
  window_ : Option Window
  isInitialized_ : Bool
  deriving DecidableEq, Repr

/-- The application object together with the allocation counter and the trace
of calls made so far. -/
structure World where
  app : Application
  nextObject : Nat
  trace : List Event
  deriving DecidableEq, Repr

/-- The `static Application application` of `GetInstance` before any call: null
smart pointers and a cleared flag, nothing allocated, nothing called. -/
def World.fresh : World :=
  { app :=
      { d3d12Device_ := none
        directCommandQueue_ := none
        computeCommandQueue_ := none
        copyCommandQueue_ := none
        window_ := none
        isInitialized_ := false }
    nextObject := 0
    trace := [] }

/-- Append calls to the trace. -/
def World.emit (w : World) (es : List Event) : World :=
  { w with trace := w.trace ++ es }

/-! ## Accessors -/

/-- `Application::GetWindow`. -/
def GetWindow (app : Application) : Option Window := app.window_

/-- `Application::GetD3D12Device`. -/
def GetD3D12Device (app : Application) : Option Device := app.d3d12Device_

/-- `Application::GetCommandQueue`. The `default` label runs
`assert(false && ..)`, which fails unless `NDEBUG` is defined, and then
returns `nullptr`. -/
def GetCommandQueue (env : Env) (app : Application) :
    D3D12_COMMAND_LIST_TYPE → Except Failure (Option CommandQueue)
  | .DIRECT => .ok app.directCommandQueue_
  | .COMPUTE => .ok app.computeCommandQueue_
  | .COPY => .ok app.copyCommandQueue_
  | _ => if env.ndebug then .ok none else .error .assertion

/-! ## Setup -/

/-- The assignment `member = std::make_unique<CommandQueue>(type)`: the new
queue is constructed first, then the queue the member held is destroyed. -/
def makeCommandQueue (w : World) (type : D3D12_COMMAND_LIST_TYPE)
    (old : Option CommandQueue) : CommandQueue × World :=
  let queue : CommandQueue := { id := w.nextObject, type := type }
  let w := { w with nextObject := w.nextObject + 1 }
  let w := w.emit [.CommandQueueCtor queue]
  match old with
  | none => (queue, w)
  | some q => (queue, w.emit [.CommandQueueDtor q])

/-- `Application::CreateCommandQueues_`. -/
def CreateCommandQueues_ (w : World) : World :=
  let (direct, w) := makeCommandQueue w .DIRECT w.app.directCommandQueue_
  let w := { w with app := { w.app with directCommandQueue_ := some direct } }
  let (compute, w) := makeCommandQueue w .COMPUTE w.app.computeCommandQueue_
  let w := { w with app := { w.app with computeCommandQueue_ := some compute } }
  let (copy, w) := makeCommandQueue w .COPY w.app.copyCommandQueue_
  { w with app := { w.app with copyCommandQueue_ := some copy } }

/-- The `_DEBUG` block at the end of `CreateDevice_`. -/
def configureInfoQueue (env : Env) (w : World) : Except Failure Unit × World :=
  if env.debug then
    if SUCCEEDED env.infoQueueAs then
      let w := w.emit [.SetBreakOnSeverity .CORRUPTION, .SetBreakOnSeverity .ERROR,
        .SetBreakOnSeverity .WARNING, .PushStorageFilter env.pushStorageFilter]
      (ThrowIfFailed env.pushStorageFilter, w)
    else (.ok (), w)
  else (.ok (), w)

/-- `Application::CreateDevice_`. Taking `&d3d12Device_` releases the device
the member held and clears it before `D3D12CreateDevice` runs. -/
def CreateDevice_ (env : Env) (useWarp : Bool) (w : World) : Except Failure Unit × World :=
  match GetAdapter_ env useWarp with
  | .error f => (.error f, w)
  | .ok adapter =>
    let w :=
      match w.app.d3d12Device_ with
      | none => w
      | some d => w.emit [.ReleaseDevice d]
    let w := { w with app := { w.app with d3d12Device_ := none } }
    let hr := env.createDevice adapter
    let w := w.emit [.D3D12CreateDevice adapter hr]
    match ThrowIfFailed hr with
    | .error f => (.error f, w)
    | .ok () =>
      let device : Device := { id := w.nextObject, adapter := adapter }
      let w := { w with
        nextObject := w.nextObject + 1
        app := { w.app with d3d12Device_ := some device } }
      configureInfoQueue env w

/-- `Application::CreateWindow_`. -/
def CreateWindow_ (env : Env) (hInstance : Nat) (windowName : String)
    (clientWidth clientHeight : Nat) (useVsync : Bool) (w : World) : World :=
  let w := w.emit [.RegisterClassExW env.registerClass]
  let w :=
    if env.registerClass = 0 then
      w.emit [.MessageBoxA "Unable to register the window class." "Error"]
    else w
  let windowRect : RECT := env.adjustWindowRect
    { left := 0, top := 0, right := toLONG clientWidth, bottom := toLONG clientHeight }
  let windowHandle := env.createWindow
  let w := w.emit [.CreateWindowW windowName (windowRect.right - windowRect.left)
    (windowRect.bottom - windowRect.top) hInstance windowHandle]
  let w :=
    if windowHandle = 0 then
      w.emit [.MessageBoxA "Could not create the render window." "Error"]
    else w
  let window : Window :=
    { id := w.nextObject, windowHandle := windowHandle, clientWidth := clientWidth,
      clientHeight := clientHeight, useVsync := useVsync }
  let w := { w with nextObject := w.nextObject + 1 }
  let w := w.emit [.WindowCtor window]
  let w :=
    match w.app.window_ with
    | none => w
    | some old => w.emit [.WindowDtor old]
  { w with app := { w.app with window_ := some window } }

/-- The `_DEBUG` block at the start of `Init`. -/
def enableDebugLayer (env : Env) (w : World) : Except Failure Unit × World :=
  if env.debug then
    match ThrowIfFailed env.getDebugInterface with
    | .error f => (.error f, w)
    | .ok () => (.ok (), w.emit [.EnableDebugLayer])
  else (.ok (), w)

/-- `Application::Init`. -/
def Init (env : Env) (hInstance : Nat) (windowName : String)
    (clientWidth clientHeight : Nat) (useVsync useWarp : Bool) (w : World) :
    Except Failure Unit × World :=
  let w := w.emit [.SetThreadDpiAwarenessContext]
  match enableDebugLayer env w with
  | (.error f, w) => (.error f, w)
  | (.ok (), w) =>
    match CreateDevice_ env useWarp w with
    | (.error f, w) => (.error f, w)
    | (.ok (), w) =>
      let w := CreateCommandQueues_ w
      let w := CreateWindow_ env hInstance windowName clientWidth clientHeight useVsync w
      let w := w.emit [.LoggerInit]
      (.ok (), { w with app := { w.app with isInitialized_ := true } })

/-! ## Running and shutting down -/

/-- `Application::Flush`. -/
def Flush (w : World) : Except Failure Unit × World :=
  match w.app.directCommandQueue_ with
  | none => (.error .nullDereference, w)
  | some direct =>
    let w := w.emit [.CommandQueueFlush direct]
    match w.app.computeCommandQueue_ with
    | none => (.error .nullDereference, w)
    | some compute =>
      let w := w.emit [.CommandQueueFlush compute]
      match w.app.copyCommandQueue_ with
      | none => (.error .nullDereference, w)
      | some copy => (.ok (), w.emit [.CommandQueueFlush copy])

/-- The `while (msg.message != WM_QUIT)` loop of `Exec` run on the answers of
the successive `PeekMessage` calls (`none`: no message was available, `msg` is
left as it was). Returns whether the loop was left, `msg` and the state at
that point, and the answers not consumed; the loop is still going when the
answers run out before a `WM_QUIT` arrives. -/
def messageLoop (msg : MSG) (w : World) :
    List (Option MSG) → Bool × MSG × World × List (Option MSG)
  | [] => if msg.message ≠ WM_QUIT then (false, msg, w, []) else (true, msg, w, [])
  | poll :: rest =>
    if msg.message ≠ WM_QUIT then
      match poll with
      | none => messageLoop msg (w.emit [.PeekMessage none]) rest
      | some m =>
        messageLoop m (w.emit [.PeekMessage (some m), .TranslateMessage m, .DispatchMessage m])
          rest
    else (true, msg, w, poll :: rest)

/-- How a call to `Exec` stands once the given `PeekMessage` answers are used
up. -/
inductive Completion
  | returned (status : Int)
  | threw (f : Failure)
  | pumping
  deriving DecidableEq, Repr

/-- `Application::Exec` on a stream of `PeekMessage` answers. Returns how the
call stands, the resulting state and the answers not consumed. -/
def Exec (w : World) (polls : List (Option MSG)) : Completion × World × List (Option MSG) :=
  if !w.app.isInitialized_ then (.returned EXIT_FAILURE, w, polls)
  else
    match w.app.window_ with
    | none => (.threw .nullDereference, w, polls)
    | some window =>
      let w := w.emit [.WindowStart window]
      match messageLoop { message := 0, wParam := 0, lParam := 0 } w polls with
      | (false, _, w, rest) => (.pumping, w, rest)
      | (true, msg, w, rest) =>
        match Flush w with
        | (.error f, w) => (.threw f, w, rest)
        | (.ok (), w) =>
          match w.app.window_ with
          | none => (.threw .nullDereference, w, rest)
          | some window =>
            (.returned (toInt msg.wParam), w.emit [.WindowDestroy window], rest)

/-! ## Vocabulary of the properties -/

/-- The calls `Exec` makes for one `PeekMessage` answer. -/
def pollEvents : Option MSG → List Event
  | none => [.PeekMessage none]
  | some m => [.PeekMessage (some m), .TranslateMessage m, .DispatchMessage m]

/-- Whether an answer of `PeekMessage` is a `WM_QUIT` message. -/
def isQuit : Option MSG → Bool
  | none => false
  | some m => m.message == WM_QUIT

/-- The event is the construction of a command queue. -/
def Event.isQueueCreation : Event → Bool
  | .CommandQueueCtor _ => true
  | _ => false

/-- The event belongs to window creation: class registration, the native
window-creation call, a message box of `CreateWindow_` or the construction of
the `Window` object. -/
def Event.isWindowCreation : Event → Bool
  | .RegisterClassExW _ => true
  | .CreateWindowW _ _ _ _ _ => true
  | .MessageBoxA _ _ => true
  | .WindowCtor _ => true
  | _ => false

/-- The event is one of the calls `Init` makes before it reaches
`CreateCommandQueues_`. -/
def Event.isDeviceStage : Event → Bool
  | .SetThreadDpiAwarenessContext => true
  | .EnableDebugLayer => true
  | .D3D12CreateDevice _ _ => true
  | .ReleaseDevice _ => true
  | .SetBreakOnSeverity _ => true
  | .PushStorageFilter _ => true
  | _ => false

/-- The event is a `Window::Destroy` call. -/
def Event.isWindowDestroy : Event → Bool
  | .WindowDestroy _ => true
  | _ => false

/-- The event is a `CommandQueue::Flush` call. -/
def Event.isFlush : Event → Bool
  | .CommandQueueFlush _ => true
  | _ => false

/-- The state of an application on which `Init` has completed: the flag is set,
the three queue members hold queues of the three types, which are distinct
objects, and the window member holds a window. -/
def Initialized (app : Application) : Prop :=
  match app.directCommandQueue_, app.computeCommandQueue_, app.copyCommandQueue_,
    app.window_ with
  | some direct, some compute, some copy, some _ =>
    app.isInitialized_ = true ∧
    direct.type = .DIRECT ∧ compute.type = .COMPUTE ∧ copy.type = .COPY ∧
    direct.id ≠ compute.id ∧ direct.id ≠ copy.id ∧ compute.id ≠ copy.id
  | _, _, _, _ => False

instance (app : Application) : Decidable (Initialized app) := by
  unfold Initialized
  split <;> infer_instance

/-! ## Sample inputs -/

/-- A discrete GPU: 4 GiB of dedicated memory, probe answers `S_FALSE`. -/
def discreteGpu : Adapter :=
  { Flags := 0, DedicatedVideoMemory := 4294967296, probe := 1, asAdapter4 := 0 }

/-- An integrated GPU with 128 MiB of dedicated memory. -/
def integratedGpu : Adapter :=
  { Flags := 0, DedicatedVideoMemory := 134217728, probe := 1, asAdapter4 := 0 }

/-- A hardware adapter that reports no dedicated memory (shared memory only). -/
def sharedMemoryGpu : Adapter :=
  { Flags := 0, DedicatedVideoMemory := 0, probe := 1, asAdapter4 := 0 }

/-- The software rasteriser: flagged `DXGI_ADAPTER_FLAG_SOFTWARE`. -/
def basicRenderDriver : Adapter :=
  { Flags := 2, DedicatedVideoMemory := 0, probe := 1, asAdapter4 := 0 }

/-- A discrete GPU on a system whose DXGI has no `IDXGIAdapter4`: the cast
answers `E_NOINTERFACE`. -/
def legacyDxgiGpu : Adapter :=
  { Flags := 0, DedicatedVideoMemory := 4294967296, probe := 1, asAdapter4 := -2147467262 }

/-- A release build on a machine where every native call succeeds. -/
def Env.sample : Env :=
  { debug := false
    ndebug := true
    getDebugInterface := 0
    createFactory := 0
    enumWarpAdapter := 0
    warpAdapter := basicRenderDriver
    adapters := [integratedGpu, discreteGpu, basicRenderDriver]
    createDevice := fun _ => 0
    infoQueueAs := 0
    pushStorageFilter := 0
    registerClass := 49852
    adjustWindowRect := fun r =>
      { left := r.left - 8, top := r.top - 31, right := r.right + 8, bottom := r.bottom + 8 }
    createWindow := 132456 }

/-- The module handle passed to `Init` in the samples. -/
def sampleInstance : Nat := 4194304

/-- The application after a first `Init` on the sample machine. -/
def World.started : World :=
  (Init Env.sample sampleInstance "DirectEcs" 1280 720 true false World.fresh).2

/-- The sample machine at a second `Init`: the window class is registered
already, so `RegisterClassExW` answers `0`. -/
def Env.again : Env := { Env.sample with registerClass := 0 }

/-- Answers of `PeekMessage`: an idle poll, `WM_PAINT`, an idle poll, `WM_QUIT`
posted by `PostQuitMessage(-1)`, and two answers that stay unread. -/
def samplePolls : List (Option MSG) :=
  [none,
   some { message := 15, wParam := 0, lParam := 0 },
   none,
   some { message := 18, wParam := 18446744073709551615, lParam := 0 },
   some { message := 15, wParam := 0, lParam := 0 },
   some { message := 18, wParam := 7, lParam := 0 }]

/-- Answers of `PeekMessage` without a `WM_QUIT` message. -/
def idlePolls : List (Option MSG) :=
  [none, some { message := 15, wParam := 0, lParam := 0 }, none]

/-- The machine of `Env.sample` with only a shared-memory adapter. -/
def Env.sharedOnly : Env := { Env.sample with adapters := [sharedMemoryGpu] }

/-- The machine of `Env.sample` with an adapter whose `IDXGIAdapter4` cast
fails. -/
def Env.legacyDxgi : Env := { Env.sample with adapters := [legacyDxgiGpu] }

/-! ## Initialized states -/

theorem Initialized.members {app : Application} (h : Initialized app) :
    app.isInitialized_ = true ∧
    ∃ direct compute copy window,
      app.directCommandQueue_ = some direct ∧ app.computeCommandQueue_ = some compute ∧
      app.copyCommandQueue_ = some copy ∧ app.window_ = some window ∧
      direct.type = .DIRECT ∧ compute.type = .COMPUTE ∧ copy.type = .COPY ∧
      direct.id ≠ compute.id ∧ direct.id ≠ copy.id ∧ compute.id ≠ copy.id := by
  unfold Initialized at h
  split at h
  · next direct compute copy window hd hc hp hw =>
    obtain ⟨hi, t1, t2, t3, n1, n2, n3⟩ := h
    exact ⟨hi, direct, compute, copy, window, hd, hc, hp, hw, t1, t2, t3, n1, n2, n3⟩
  · exact absurd h id

/-! ## Adapter selection: the enumeration loop -/

theorem eligible_iff (a : Adapter) :
    eligible a = true ↔ (a.Flags &&& DXGI_ADAPTER_FLAG_SOFTWARE) = 0 ∧ 0 ≤ a.probe := by
  simp [eligible, SUCCEEDED]

theorem enumerateAdapters_cons (a : Adapter) (rest : List Adapter) (m : Nat)
    (cur : Option Adapter) :
    enumerateAdapters (a :: rest) m cur =
      if eligible a = true ∧ m < a.DedicatedVideoMemory then
        (if a.asAdapter4 < 0 then .error (.hresult a.asAdapter4)
         else enumerateAdapters rest a.DedicatedVideoMemory (some a))
      else enumerateAdapters rest m cur := by
  by_cases h3 : a.asAdapter4 < 0 <;>
    simp [enumerateAdapters, eligible, SUCCEEDED, ThrowIfFailed, FAILED, h3]

/-- What the enumeration loop returns: either the candidate it started with,
no eligible adapter exceeding the starting maximum, or an eligible adapter of
the list above the starting maximum and not exceeded by any eligible one. -/
theorem enumerateAdapters_ok (l : List Adapter) :
    ∀ (m : Nat) (cur r : Option Adapter), enumerateAdapters l m cur = .ok r →
      (r = cur ∧ ∀ b ∈ l, eligible b = true → b.DedicatedVideoMemory ≤ m) ∨
      (∃ a, r = some a ∧ a ∈ l ∧ eligible a = true ∧ m < a.DedicatedVideoMemory ∧
        ∀ b ∈ l, eligible b = true → b.DedicatedVideoMemory ≤ a.DedicatedVideoMemory) := by
  induction l with
  | nil =>
    intro m cur r h
    left
    simp [enumerateAdapters] at h
    exact ⟨h.symm, by simp⟩
  | cons a rest ih =>
    intro m cur r h
    rw [enumerateAdapters_cons] at h
    by_cases hc : eligible a = true ∧ m < a.DedicatedVideoMemory
    · rw [if_pos hc] at h
      by_cases hf : a.asAdapter4 < 0
      · rw [if_pos hf] at h
        cases h
      · rw [if_neg hf] at h
        right
        rcases ih _ _ _ h with ⟨hr, hall⟩ | ⟨a', hr, hmem, hel, hlt, hall⟩
        · refine ⟨a, hr, List.mem_cons_self _ _, hc.1, hc.2, ?_⟩
          intro b hb hbe
          rcases List.mem_cons.mp hb with rfl | hb
          · exact le_rfl
          · exact hall b hb hbe
        · refine ⟨a', hr, List.mem_cons_of_mem _ hmem, hel, lt_trans hc.2 hlt, ?_⟩
          intro b hb hbe
          rcases List.mem_cons.mp hb with rfl | hb
          · exact le_of_lt hlt
          · exact hall b hb hbe
    · rw [if_neg hc] at h
      have ha : eligible a = true → a.DedicatedVideoMemory ≤ m := by
        intro he
        by_contra hlt
        exact hc ⟨he, not_le.mp hlt⟩
      rcases ih _ _ _ h with ⟨hr, hall⟩ | ⟨a', hr, hmem, hel, hlt, hall⟩
      · left
        refine ⟨hr, ?_⟩
        intro b hb hbe
        rcases List.mem_cons.mp hb with rfl | hb
        · exact ha hbe
        · exact hall b hb hbe
      · right
        refine ⟨a', hr, List.mem_cons_of_mem _ hmem, hel, hlt, ?_⟩
        intro b hb hbe
        rcases List.mem_cons.mp hb with rfl | hb
        · exact le_trans (ha hbe) (le_of_lt hlt)
        · exact hall b hb hbe

/-- The enumeration loop fails only on the failed `IDXGIAdapter4` cast of an
eligible adapter of the list. -/
theorem enumerateAdapters_error (l : List Adapter) :
    ∀ (m : Nat) (cur : Option Adapter) (f : Failure), enumerateAdapters l m cur = .error f →
      ∃ a ∈ l, eligible a = true ∧ a.asAdapter4 < 0 ∧ f = .hresult a.asAdapter4 := by
  induction l with
  | nil =>
    intro m cur f h
    simp [enumerateAdapters] at h
  | cons a rest ih =>
    intro m cur f h
    rw [enumerateAdapters_cons] at h
    by_cases hc : eligible a = true ∧ m < a.DedicatedVideoMemory
    · rw [if_pos hc] at h
      by_cases hf : a.asAdapter4 < 0
      · rw [if_pos hf] at h
        refine ⟨a, List.mem_cons_self _ _, hc.1, hf, ?_⟩
        cases h
        rfl
      · rw [if_neg hf] at h
        obtain ⟨a', hmem, h'⟩ := ih _ _ _ h
        exact ⟨a', List.mem_cons_of_mem _ hmem, h'⟩
    · rw [if_neg hc] at h
      obtain ⟨a', hmem, h'⟩ := ih _ _ _ h
      exact ⟨a', List.mem_cons_of_mem _ hmem, h'⟩

/-- With no eligible adapter above the starting maximum the loop returns the
candidate it started with. -/
theorem enumerateAdapters_none_above (l : List Adapter) (m : Nat) (cur : Option Adapter)
    (h : ∀ b ∈ l, eligible b = true → b.DedicatedVideoMemory ≤ m) :
    enumerateAdapters l m cur = .ok cur := by
  induction l with
  | nil => simp [enumerateAdapters]
  | cons a rest ih =>
    rw [enumerateAdapters_cons]
    have hc : ¬ (eligible a = true ∧ m < a.DedicatedVideoMemory) := by
      rintro ⟨he, hlt⟩
      exact absurd (h a (List.mem_cons_self _ _) he) (not_le.mpr hlt)
    rw [if_neg hc]
    exact ih (fun b hb => h b (List.mem_cons_of_mem _ hb))

theorem GetAdapter__enumerate (env : Env) (hf : 0 ≤ env.createFactory) :
    GetAdapter_ env false = enumerateAdapters env.adapters 0 none := by
  have : ¬ env.createFactory < 0 := not_lt.mpr hf
  simp [GetAdapter_, ThrowIfFailed, FAILED, this]

/-! ## The trace -/

@[simp] theorem World.emit_app (w : World) (es : List Event) : (w.emit es).app = w.app := rfl

@[simp] theorem World.emit_nextObject (w : World) (es : List Event) :
    (w.emit es).nextObject = w.nextObject := rfl

@[simp] theorem World.emit_trace (w : World) (es : List Event) :
    (w.emit es).trace = w.trace ++ es := rfl

theorem World.emit_emit (w : World) (es fs : List Event) :
    (w.emit es).emit fs = w.emit (es ++ fs) := by
  simp [World.emit]

/-! ## The message loop -/

theorem isQuit_false_iff (m : MSG) : isQuit (some m) = false ↔ m.message ≠ WM_QUIT := by
  simp [isQuit]

theorem messageLoop_at_quit (msg : MSG) (w : World) (polls : List (Option MSG))
    (h : msg.message = WM_QUIT) : messageLoop msg w polls = (true, msg, w, polls) := by
  cases polls <;> simp [messageLoop, h]

theorem messageLoop_cons (msg : MSG) (w : World) (poll : Option MSG)
    (rest : List (Option MSG)) (h : msg.message ≠ WM_QUIT) :
    messageLoop msg w (poll :: rest) =
      messageLoop (poll.getD msg) (w.emit (pollEvents poll)) rest := by
  cases poll <;> simp [messageLoop, h, pollEvents]

/-- The loop consumes the answers up to and including the first `WM_QUIT`
message and leaves the others. -/
theorem messageLoop_first_quit (pre : List (Option MSG)) (q : MSG) (rest : List (Option MSG))
    (hq : q.message = WM_QUIT) :
    ∀ (msg : MSG) (w : World), msg.message ≠ WM_QUIT → (∀ p ∈ pre, isQuit p = false) →
      messageLoop msg w (pre ++ some q :: rest) =
        (true, q, w.emit (pre.flatMap pollEvents ++ pollEvents (some q)), rest) := by
  induction pre with
  | nil =>
    intro msg w hmsg _
    rw [List.nil_append, messageLoop_cons _ _ _ _ hmsg]
    simpa using messageLoop_at_quit q _ rest hq
  | cons p pre ih =>
    intro msg w hmsg hpre
    rw [List.cons_append, messageLoop_cons _ _ _ _ hmsg]
    have hp : isQuit p = false := hpre p (List.mem_cons_self _ _)
    have hmsg' : (p.getD msg).message ≠ WM_QUIT := by
      cases p with
      | none => simpa using hmsg
      | some m => simpa using (isQuit_false_iff m).mp hp
    rw [ih _ _ hmsg' (fun x hx => hpre x (List.mem_cons_of_mem _ hx)), World.emit_emit]
    simp [List.flatMap_cons, List.append_assoc]

/-- Without a `WM_QUIT` message among the answers the loop consumes them all
and is still going. -/
theorem messageLoop_no_quit (polls : List (Option MSG)) :
    ∀ (msg : MSG) (w : World), msg.message ≠ WM_QUIT → (∀ p ∈ polls, isQuit p = false) →
      ∃ m, messageLoop msg w polls = (false, m, w.emit (polls.flatMap pollEvents), []) := by
  induction polls with
  | nil =>
    intro msg w hmsg _
    exact ⟨msg, by simp [messageLoop, hmsg, World.emit]⟩
  | cons p polls ih =>
    intro msg w hmsg hall
    rw [messageLoop_cons _ _ _ _ hmsg]
    have hp : isQuit p = false := hall p (List.mem_cons_self _ _)
    have hmsg' : (p.getD msg).message ≠ WM_QUIT := by
      cases p with
      | none => simpa using hmsg
      | some m => simpa using (isQuit_false_iff m).mp hp
    obtain ⟨m, hm⟩ := ih _ (w.emit (pollEvents p)) hmsg'
      (fun x hx => hall x (List.mem_cons_of_mem _ hx))
    exact ⟨m, by rw [hm, World.emit_emit]; simp [List.flatMap_cons]⟩

/-- A list of answers with a `WM_QUIT` message splits at the first one. -/
theorem exists_first_quit (polls : List (Option MSG)) (h : ∃ p ∈ polls, isQuit p = true) :
    ∃ pre q rest, polls = pre ++ some q :: rest ∧ (∀ p ∈ pre, isQuit p = false) ∧
      q.message = WM_QUIT := by
  induction polls with
  | nil =>
    obtain ⟨p, hp, -⟩ := h
    cases hp
  | cons p polls ih =>
    by_cases hp : isQuit p = true
    · cases p with
      | none => simp [isQuit] at hp
      | some m =>
        refine ⟨[], m, polls, rfl, by simp, ?_⟩
        simpa [isQuit] using hp
    · have hrest : ∃ x ∈ polls, isQuit x = true := by
        obtain ⟨x, hx, hxq⟩ := h
        rcases List.mem_cons.mp hx with rfl | hx
        · exact absurd hxq hp
        · exact ⟨x, hx, hxq⟩
      obtain ⟨pre, q, rest, he, hpre, hq⟩ := ih hrest
      refine ⟨p :: pre, q, rest, by rw [he]; rfl, ?_, hq⟩
      intro x hx
      rcases List.mem_cons.mp hx with rfl | hx
      · simpa using hp
      · exact hpre x hx

/-- The answers split at position `k` when the first `WM_QUIT` message is
there. -/
theorem split_at_first_quit (polls : List (Option MSG)) (k : Nat) (q : MSG)
    (hk : polls[k]? = some (some q))
    (hfirst : ∀ j, j < k → ∀ m, polls[j]? = some (some m) → m.message ≠ WM_QUIT) :
    polls = polls.take k ++ some q :: polls.drop (k + 1) ∧
      ∀ p ∈ polls.take k, isQuit p = false := by
  obtain ⟨hlt, hget⟩ := List.getElem?_eq_some.mp hk
  constructor
  · conv_lhs => rw [← List.take_append_drop k polls, List.drop_eq_getElem_cons hlt, hget]
  · intro p hp
    obtain ⟨j, hj, hpj⟩ := List.mem_take_iff_getElem.mp hp
    cases p with
    | none => rfl
    | some m =>
      have hjk : j < k := lt_of_lt_of_le hj (min_le_left _ _)
      have hjl : j < polls.length := lt_of_lt_of_le hj (min_le_right _ _)
      have : polls[j]? = some (some m) := by
        rw [List.getElem?_eq_getElem hjl, hpj]
      exact (isQuit_false_iff m).mpr (hfirst j hjk m this)

/-! ## `Flush` and `Exec` -/

theorem Flush_of_queues (w : World) (direct compute copy : CommandQueue)
    (hd : w.app.directCommandQueue_ = some direct)
    (hc : w.app.computeCommandQueue_ = some compute)
    (hp : w.app.copyCommandQueue_ = some copy) :
    Flush w = (.ok (), w.emit [.CommandQueueFlush direct, .CommandQueueFlush compute,
      .CommandQueueFlush copy]) := by
  simp [Flush, hd, hc, hp, World.emit]

/-- What `Exec` does when the first `WM_QUIT` message follows the answers
`pre`. -/
theorem Exec_first_quit (w : World) (direct compute copy : CommandQueue) (window : Window)
    (hi : w.app.isInitialized_ = true)
    (hd : w.app.directCommandQueue_ = some direct)
    (hc : w.app.computeCommandQueue_ = some compute)
    (hp : w.app.copyCommandQueue_ = some copy)
    (hw : w.app.window_ = some window)
    (pre : List (Option MSG)) (q : MSG) (rest : List (Option MSG))
    (hpre : ∀ p ∈ pre, isQuit p = false) (hq : q.message = WM_QUIT) :
    Exec w (pre ++ some q :: rest) =
      (.returned (toInt q.wParam),
       w.emit (.WindowStart window :: (pre ++ [some q]).flatMap pollEvents ++
         [.CommandQueueFlush direct, .CommandQueueFlush compute, .CommandQueueFlush copy,
          .WindowDestroy window]),
       rest) := by
  have h0 : ({ message := 0, wParam := 0, lParam := 0 } : MSG).message ≠ WM_QUIT := by decide
  have hloop := messageLoop_first_quit pre q rest hq _ (w.emit [.WindowStart window]) h0 hpre
  have hflush := Flush_of_queues
    ((w.emit [.WindowStart window]).emit (pre.flatMap pollEvents ++ pollEvents (some q)))
    direct compute copy hd hc hp
  simp only [Exec, hi, hw, hloop, hflush]
  simp [World.emit, List.flatMap_append, List.append_assoc, hw]

/-- What `Exec` does when no `WM_QUIT` message is among the answers. -/
theorem Exec_no_quit (w : World) (window : Window)
    (hi : w.app.isInitialized_ = true) (hw : w.app.window_ = some window)
    (polls : List (Option MSG)) (hall : ∀ p ∈ polls, isQuit p = false) :
    Exec w polls = (.pumping, w.emit (.WindowStart window :: polls.flatMap pollEvents), []) := by
  have h0 : ({ message := 0, wParam := 0, lParam := 0 } : MSG).message ≠ WM_QUIT := by decide
  obtain ⟨m, hm⟩ := messageLoop_no_quit polls _ (w.emit [.WindowStart window]) h0 hall
  simp only [Exec, hi, hw, hm]
  simp [World.emit]

theorem pollEvents_not_destroy (polls : List (Option MSG)) :
    ∀ e ∈ polls.flatMap pollEvents, e.isWindowDestroy = false ∧ e.isFlush = false := by
  intro e he
  obtain ⟨p, -, hp⟩ := List.mem_flatMap.mp he
  cases p with
  | none =>
    simp [pollEvents] at hp
    subst hp
    exact ⟨rfl, rfl⟩
  | some m =>
    simp [pollEvents] at hp
    rcases hp with rfl | rfl | rfl <;> exact ⟨rfl, rfl⟩

/-! ## The setup steps -/

theorem ThrowIfFailed_of_failed (hr : HRESULT) (h : hr < 0) :
    ThrowIfFailed hr = .error (.hresult hr) := by
  simp [ThrowIfFailed, FAILED, h]

theorem ThrowIfFailed_of_succeeded (hr : HRESULT) (h : 0 ≤ hr) : ThrowIfFailed hr = .ok () := by
  simp [ThrowIfFailed, FAILED, not_lt.mpr h]

theorem makeCommandQueue_eq (w : World) (type : D3D12_COMMAND_LIST_TYPE)
    (old : Option CommandQueue) :
    makeCommandQueue w type old =
      ({ id := w.nextObject, type := type },
       { app := w.app, nextObject := w.nextObject + 1,
         trace := w.trace ++
           (.CommandQueueCtor { id := w.nextObject, type := type } ::
             old.toList.map .CommandQueueDtor) }) := by
  cases old <;> simp [makeCommandQueue, World.emit]

theorem CreateCommandQueues__eq (w : World) :
    CreateCommandQueues_ w =
      { app := { w.app with
          directCommandQueue_ := some { id := w.nextObject, type := .DIRECT }
          computeCommandQueue_ := some { id := w.nextObject + 1, type := .COMPUTE }
          copyCommandQueue_ := some { id := w.nextObject + 2, type := .COPY } }
        nextObject := w.nextObject + 3
        trace := w.trace ++
          (.CommandQueueCtor { id := w.nextObject, type := .DIRECT } ::
            w.app.directCommandQueue_.toList.map .CommandQueueDtor) ++
          (.CommandQueueCtor { id := w.nextObject + 1, type := .COMPUTE } ::
            w.app.computeCommandQueue_.toList.map .CommandQueueDtor) ++
          (.CommandQueueCtor { id := w.nextObject + 2, type := .COPY } ::
            w.app.copyCommandQueue_.toList.map .CommandQueueDtor) } := by
  simp [CreateCommandQueues_, makeCommandQueue_eq, Nat.add_assoc]

theorem CreateWindow__eq (env : Env) (hInstance : Nat) (windowName : String)
    (clientWidth clientHeight : Nat) (useVsync : Bool) (w : World) :
    CreateWindow_ env hInstance windowName clientWidth clientHeight useVsync w =
      { app := { w.app with
          window_ := some { id := w.nextObject, windowHandle := env.createWindow,
                            clientWidth := clientWidth, clientHeight := clientHeight,
                            useVsync := useVsync } }
        nextObject := w.nextObject + 1
        trace := w.trace ++
          (.RegisterClassExW env.registerClass ::
            (if env.registerClass = 0 then
              [.MessageBoxA "Unable to register the window class." "Error"] else [])) ++
          (.CreateWindowW windowName
              ((env.adjustWindowRect ⟨0, 0, toLONG clientWidth, toLONG clientHeight⟩).right -
                (env.adjustWindowRect ⟨0, 0, toLONG clientWidth, toLONG clientHeight⟩).left)
              ((env.adjustWindowRect ⟨0, 0, toLONG clientWidth, toLONG clientHeight⟩).bottom -
                (env.adjustWindowRect ⟨0, 0, toLONG clientWidth, toLONG clientHeight⟩).top)
              hInstance env.createWindow ::
            (if env.createWindow = 0 then
              [.MessageBoxA "Could not create the render window." "Error"] else [])) ++
          (.WindowCtor { id := w.nextObject, windowHandle := env.createWindow,
                         clientWidth := clientWidth, clientHeight := clientHeight,
                         useVsync := useVsync } ::
            w.app.window_.toList.map .WindowDtor) } := by
  cases hw : w.app.window_ <;> by_cases h1 : env.registerClass = 0 <;>
    by_cases h2 : env.createWindow = 0 <;>
    simp [CreateWindow_, World.emit, hw, h1, h2]

theorem World.emit_nil (w : World) : w.emit [] = w := by
  simp [World.emit]

theorem enableDebugLayer_ok (env : Env) (w : World)
    (hdbg : env.debug = true → 0 ≤ env.getDebugInterface) :
    enableDebugLayer env w = (.ok (), w.emit (if env.debug then [.EnableDebugLayer] else [])) := by
  by_cases hd : env.debug = true
  · simp [enableDebugLayer, hd, ThrowIfFailed_of_succeeded _ (hdbg hd)]
  · simp [enableDebugLayer, hd, World.emit_nil]

theorem enableDebugLayer_error (env : Env) (w : World)
    (hdbg : ¬ (env.debug = true → 0 ≤ env.getDebugInterface)) :
    enableDebugLayer env w = (.error (.hresult env.getDebugInterface), w) := by
  have hd : env.debug = true := by
    by_contra hd
    exact hdbg (fun h => absurd h hd)
  have hf : env.getDebugInterface < 0 := by
    by_contra hf
    exact hdbg (fun _ => not_lt.mp hf)
  simp [enableDebugLayer, hd, ThrowIfFailed_of_failed _ hf]

theorem configureInfoQueue_eq (env : Env) :
    ∃ r es, (∀ w, configureInfoQueue env w = (r, w.emit es)) ∧
      ∀ e ∈ es, e.isDeviceStage = true := by
  by_cases hd : env.debug = true
  · by_cases hs : SUCCEEDED env.infoQueueAs = true
    · refine ⟨ThrowIfFailed env.pushStorageFilter,
        [.SetBreakOnSeverity .CORRUPTION, .SetBreakOnSeverity .ERROR,
         .SetBreakOnSeverity .WARNING, .PushStorageFilter env.pushStorageFilter],
        fun w => ?_, ?_⟩
      · simp only [configureInfoQueue, hd, hs, if_true]
      · intro e he
        simp at he
        rcases he with rfl | rfl | rfl | rfl <;> rfl
    · exact ⟨.ok (), [], fun w => by simp [configureInfoQueue, hd, hs, World.emit_nil],
        by simp⟩
  · exact ⟨.ok (), [], fun w => by simp [configureInfoQueue, hd, World.emit_nil], by simp⟩

theorem CreateDevice__adapter_error (env : Env) (useWarp : Bool) (w : World) (f : Failure)
    (h : GetAdapter_ env useWarp = .error f) : CreateDevice_ env useWarp w = (.error f, w) := by
  simp [CreateDevice_, h]

theorem CreateDevice__device_error (env : Env) (useWarp : Bool) (w : World)
    (adapter : Option Adapter) (h : GetAdapter_ env useWarp = .ok adapter)
    (hf : env.createDevice adapter < 0) :
    CreateDevice_ env useWarp w =
      (.error (.hresult (env.createDevice adapter)),
       { app := { w.app with d3d12Device_ := none }
         nextObject := w.nextObject
         trace := w.trace ++ (w.app.d3d12Device_.toList.map .ReleaseDevice ++
           [.D3D12CreateDevice adapter (env.createDevice adapter)]) }) := by
  cases hd : w.app.d3d12Device_ <;>
    simp [CreateDevice_, h, hd, ThrowIfFailed_of_failed _ hf, World.emit]

theorem CreateDevice__device_ok (env : Env) (useWarp : Bool) (w : World)
    (adapter : Option Adapter) (h : GetAdapter_ env useWarp = .ok adapter)
    (hs : 0 ≤ env.createDevice adapter) :
    CreateDevice_ env useWarp w =
      configureInfoQueue env
        { app := { w.app with d3d12Device_ := some { id := w.nextObject, adapter := adapter } }
          nextObject := w.nextObject + 1
          trace := w.trace ++ (w.app.d3d12Device_.toList.map .ReleaseDevice ++
            [.D3D12CreateDevice adapter (env.createDevice adapter)]) } := by
  cases hd : w.app.d3d12Device_ <;>
    simp [CreateDevice_, h, hd, ThrowIfFailed_of_succeeded _ hs, World.emit]

theorem releaseDevice_isDeviceStage (old : Option Device) (adapter : Option Adapter)
    (hr : HRESULT) :
    ∀ e ∈ old.toList.map Event.ReleaseDevice ++ [Event.D3D12CreateDevice adapter hr],
      e.isDeviceStage = true := by
  intro e he
  cases old with
  | none =>
    simp at he
    subst he
    rfl
  | some d =>
    simp at he
    rcases he with rfl | rfl <;> rfl

/-- When the adapter or the device cannot be obtained, `CreateDevice_` leaves
with that failure, having made only device-stage calls and touched no member
but `d3d12Device_`. -/
theorem CreateDevice__failure (env : Env) (useWarp : Bool) (w : World) (f : Failure)
    (hfail : GetAdapter_ env useWarp = .error f ∨
      ∃ a, GetAdapter_ env useWarp = .ok a ∧ env.createDevice a < 0 ∧
        f = .hresult (env.createDevice a)) :
    ∃ w' new, CreateDevice_ env useWarp w = (.error f, w') ∧
      w'.trace = w.trace ++ new ∧ (∀ e ∈ new, e.isDeviceStage = true) ∧
      w'.nextObject = w.nextObject ∧
      w'.app.directCommandQueue_ = w.app.directCommandQueue_ ∧
      w'.app.computeCommandQueue_ = w.app.computeCommandQueue_ ∧
      w'.app.copyCommandQueue_ = w.app.copyCommandQueue_ ∧
      w'.app.window_ = w.app.window_ ∧
      w'.app.isInitialized_ = w.app.isInitialized_ := by
  rcases hfail with h | ⟨a, h, hf, rfl⟩
  · exact ⟨w, [], CreateDevice__adapter_error env useWarp w f h, by simp, by simp,
      rfl, rfl, rfl, rfl, rfl, rfl⟩
  · exact ⟨_, _, CreateDevice__device_error env useWarp w a h hf, rfl,
      releaseDevice_isDeviceStage _ _ _, rfl, rfl, rfl, rfl, rfl, rfl⟩

/-- When `CreateDevice_` returns, the adapter was obtained, the device was
created on it and stored with a fresh identity, and only device-stage calls
were made, `D3D12CreateDevice` among them. -/
theorem CreateDevice__success (env : Env) (useWarp : Bool) (w : World)
    (h : (CreateDevice_ env useWarp w).1 = .ok ()) :
    ∃ adapter pre post, GetAdapter_ env useWarp = .ok adapter ∧
      0 ≤ env.createDevice adapter ∧
      CreateDevice_ env useWarp w =
        (.ok (),
         { app := { w.app with
             d3d12Device_ := some { id := w.nextObject, adapter := adapter } }
           nextObject := w.nextObject + 1
           trace := w.trace ++
             (pre ++ .D3D12CreateDevice adapter (env.createDevice adapter) :: post) }) ∧
      (∀ e ∈ pre ++ post, e.isDeviceStage = true) := by
  cases hg : GetAdapter_ env useWarp with
  | error f =>
    rw [CreateDevice__adapter_error env useWarp w f hg] at h
    cases h
  | ok adapter =>
    by_cases hf : env.createDevice adapter < 0
    · rw [CreateDevice__device_error env useWarp w adapter hg hf] at h
      cases h
    · have hs : 0 ≤ env.createDevice adapter := not_lt.mp hf
      obtain ⟨r, es, hcfg, hes⟩ := configureInfoQueue_eq env
      rw [CreateDevice__device_ok env useWarp w adapter hg hs, hcfg] at h
      simp only at h
      subst h
      refine ⟨adapter, w.app.d3d12Device_.toList.map .ReleaseDevice, es, rfl, hs, ?_, ?_⟩
      · rw [CreateDevice__device_ok env useWarp w adapter hg hs, hcfg]
        simp [World.emit, List.append_assoc]
      · intro e he
        rcases List.mem_append.mp he with he | he
        · exact releaseDevice_isDeviceStage _ adapter 0 e (List.mem_append_left _ he)
        · exact hes e he

/-! ## `Init` -/

theorem sublist_step {α : Type} (x : α) (pre : List α) {s l : List α} (h : s.Sublist l) :
    (x :: s).Sublist (pre ++ x :: l) :=
  (List.Sublist.cons₂ x h).trans (List.sublist_append_right pre (x :: l))

/-- A call to `Init` that returns has run every setup step: the calls it made,
in order, and the state it leaves. -/
theorem Init_success (env : Env) (hInstance : Nat) (windowName : String)
    (clientWidth clientHeight : Nat) (useVsync useWarp : Bool) (w : World)
    (h : (Init env hInstance windowName clientWidth clientHeight useVsync useWarp w).1 =
      .ok ()) :
    ∃ adapter a0 a1 nWidth nHeight, GetAdapter_ env useWarp = .ok adapter ∧
      0 ≤ env.createDevice adapter ∧
      Init env hInstance windowName clientWidth clientHeight useVsync useWarp w =
        (.ok (),
         { app :=
             { d3d12Device_ := some { id := w.nextObject, adapter := adapter }
               directCommandQueue_ := some { id := w.nextObject + 1, type := .DIRECT }
               computeCommandQueue_ := some { id := w.nextObject + 2, type := .COMPUTE }
               copyCommandQueue_ := some { id := w.nextObject + 3, type := .COPY }
               window_ := some { id := w.nextObject + 4, windowHandle := env.createWindow,
                                 clientWidth := clientWidth, clientHeight := clientHeight,
                                 useVsync := useVsync }
               isInitialized_ := true }
           nextObject := w.nextObject + 5
           trace := w.trace ++
             (a0 ++ .D3D12CreateDevice adapter (env.createDevice adapter) ::
             (a1 ++ .CommandQueueCtor { id := w.nextObject + 1, type := .DIRECT } ::
             (w.app.directCommandQueue_.toList.map .CommandQueueDtor ++
               .CommandQueueCtor { id := w.nextObject + 2, type := .COMPUTE } ::
             (w.app.computeCommandQueue_.toList.map .CommandQueueDtor ++
               .CommandQueueCtor { id := w.nextObject + 3, type := .COPY } ::
             (w.app.copyCommandQueue_.toList.map .CommandQueueDtor ++
               .RegisterClassExW env.registerClass ::
             ((if env.registerClass = 0 then
                 [.MessageBoxA "Unable to register the window class." "Error"] else []) ++
               .CreateWindowW windowName nWidth nHeight hInstance env.createWindow ::
             ((if env.createWindow = 0 then
                 [.MessageBoxA "Could not create the render window." "Error"] else []) ++
               .WindowCtor { id := w.nextObject + 4, windowHandle := env.createWindow,
                             clientWidth := clientWidth, clientHeight := clientHeight,
                             useVsync := useVsync } ::
             (w.app.window_.toList.map .WindowDtor ++ [.LoggerInit])))))))) }) := by
  by_cases hdbg : env.debug = true → 0 ≤ env.getDebugInterface
  · have hdl := enableDebugLayer_ok env (w.emit [.SetThreadDpiAwarenessContext]) hdbg
    rw [World.emit_emit] at hdl
    have hcd : (CreateDevice_ env useWarp (w.emit ([.SetThreadDpiAwarenessContext] ++
        if env.debug then [.EnableDebugLayer] else []))).1 = .ok () := by
      cases hres : CreateDevice_ env useWarp (w.emit ([.SetThreadDpiAwarenessContext] ++
        if env.debug then [.EnableDebugLayer] else [])) with
      | mk r w' =>
        cases r with
        | error f =>
          simp only [Init, hdl, hres] at h
          cases h
        | ok u => rfl
    obtain ⟨adapter, pre, post, hg, hs, heq, -⟩ := CreateDevice__success env useWarp _ hcd
    refine ⟨adapter, ([.SetThreadDpiAwarenessContext] ++
        if env.debug then [.EnableDebugLayer] else []) ++ pre, post,
      (env.adjustWindowRect ⟨0, 0, toLONG clientWidth, toLONG clientHeight⟩).right -
        (env.adjustWindowRect ⟨0, 0, toLONG clientWidth, toLONG clientHeight⟩).left,
      (env.adjustWindowRect ⟨0, 0, toLONG clientWidth, toLONG clientHeight⟩).bottom -
        (env.adjustWindowRect ⟨0, 0, toLONG clientWidth, toLONG clientHeight⟩).top,
      hg, hs, ?_⟩
    simp only [Init, hdl, heq, CreateCommandQueues__eq, CreateWindow__eq]
    simp [World.emit, List.append_assoc, Nat.add_assoc]
  · simp [Init, enableDebugLayer_error env _ hdbg] at h

/-- After a call to `Init` that returns the application is initialized. -/
theorem Init_success_initialized (env : Env) (hInstance : Nat) (windowName : String)
    (clientWidth clientHeight : Nat) (useVsync useWarp : Bool) (w : World)
    (h : (Init env hInstance windowName clientWidth clientHeight useVsync useWarp w).1 =
      .ok ()) :
    Initialized (Init env hInstance windowName clientWidth clientHeight useVsync useWarp w).2.app := by
  obtain ⟨adapter, a0, a1, nw, nh, -, -, heq⟩ :=
    Init_success env hInstance windowName clientWidth clientHeight useVsync useWarp w h
  rw [heq]
  simp [Initialized]

/-! ## Adapter selection: `GetAdapter_` -/

/-- C6, as stated, fails on the code: with `useWarp = false` and exactly one
enumerated adapter, which is eligible, `GetAdapter_` returns null when that
adapter reports no dedicated video memory, and throws when its
`IDXGIAdapter4` cast fails; in neither case does it return the eligible
adapter. -/
theorem GetAdapter__not_always_eligible :
    ¬ (∀ env : Env, 0 ≤ env.createFactory →
        (∃ a ∈ env.adapters, eligible a = true) →
        ∃ a, GetAdapter_ env false = .ok (some a) ∧ a ∈ env.adapters ∧ eligible a = true ∧
          ∀ b ∈ env.adapters, eligible b = true →
            b.DedicatedVideoMemory ≤ a.DedicatedVideoMemory) ∧
    eligible sharedMemoryGpu = true ∧
    GetAdapter_ Env.sharedOnly false = .ok none ∧
    eligible legacyDxgiGpu = true ∧
    GetAdapter_ Env.legacyDxgi false = .error (.hresult (-2147467262)) := by
  refine ⟨?_, by decide, by decide, by decide, by decide⟩
  intro h
  obtain ⟨a, ha, -⟩ := h Env.sharedOnly (by decide) ⟨sharedMemoryGpu, by decide, by decide⟩
  have hn : GetAdapter_ Env.sharedOnly false = .ok none := by decide
  rw [hn] at ha
  cases ha

/-- C6, amended: with `useWarp = false`, for every enumerated adapter list that
contains at least one eligible adapter with non-zero dedicated video memory,
`GetAdapter_` either returns an eligible adapter of the list whose dedicated
video memory is greater than or equal to that of every eligible adapter in the
list, or throws the failed result of the `IDXGIAdapter4` cast of an eligible
adapter of the list. -/
theorem GetAdapter__largest_dedicated_memory (env : Env) (hf : 0 ≤ env.createFactory)
    (hex : ∃ a ∈ env.adapters, eligible a = true ∧ 0 < a.DedicatedVideoMemory) :
    (∃ a, GetAdapter_ env false = .ok (some a) ∧ a ∈ env.adapters ∧ eligible a = true ∧
      ∀ b ∈ env.adapters, eligible b = true →
        b.DedicatedVideoMemory ≤ a.DedicatedVideoMemory) ∨
    (∃ a ∈ env.adapters, eligible a = true ∧ a.asAdapter4 < 0 ∧
      GetAdapter_ env false = .error (.hresult a.asAdapter4)) := by
  rw [GetAdapter__enumerate env hf]
  cases hres : enumerateAdapters env.adapters 0 none with
  | error f =>
    right
    obtain ⟨a, hmem, hel, hlt, rfl⟩ := enumerateAdapters_error _ _ _ _ hres
    exact ⟨a, hmem, hel, hlt, rfl⟩
  | ok r =>
    left
    rcases enumerateAdapters_ok _ _ _ _ hres with ⟨-, hall⟩ | ⟨a, hr, hmem, hel, -, hall⟩
    · obtain ⟨a, hmem, hel, hpos⟩ := hex
      exact absurd (hall a hmem hel) (not_le.mpr hpos)
    · exact ⟨a, by rw [hr], hmem, hel, hall⟩

/-- On the sample machine the amended C6 applies and the adapter returned is
the discrete GPU. -/
theorem GetAdapter__largest_dedicated_memory_witness :
    GetAdapter_ Env.sample false = .ok (some discreteGpu) ∧
    ((∃ a, GetAdapter_ Env.sample false = .ok (some a) ∧ a ∈ Env.sample.adapters ∧
        eligible a = true ∧
        ∀ b ∈ Env.sample.adapters, eligible b = true →
          b.DedicatedVideoMemory ≤ a.DedicatedVideoMemory) ∨
      (∃ a ∈ Env.sample.adapters, eligible a = true ∧ a.asAdapter4 < 0 ∧
        GetAdapter_ Env.sample false = .error (.hresult a.asAdapter4))) :=
  ⟨by decide,
   GetAdapter__largest_dedicated_memory Env.sample (by decide)
     ⟨discreteGpu, by decide, by decide, by decide⟩⟩

/-- C10: with `useWarp = false`, whatever `GetAdapter_` returns is null or an
adapter of the enumerated list that is not software-flagged, passed the device
creation probe and has dedicated video memory strictly above zero; and when
the factory was created and no eligible adapter has non-zero dedicated memory,
`GetAdapter_` returns null. -/
theorem GetAdapter__null_or_hardware (env : Env) :
    (∀ r, GetAdapter_ env false = .ok r →
      r = none ∨
      ∃ a, r = some a ∧ a ∈ env.adapters ∧
        (a.Flags &&& DXGI_ADAPTER_FLAG_SOFTWARE) = 0 ∧ SUCCEEDED a.probe = true ∧
        0 < a.DedicatedVideoMemory) ∧
    (0 ≤ env.createFactory →
      (∀ b ∈ env.adapters, eligible b = true → b.DedicatedVideoMemory = 0) →
      GetAdapter_ env false = .ok none) := by
  constructor
  · intro r hr
    by_cases hf : 0 ≤ env.createFactory
    · rw [GetAdapter__enumerate env hf] at hr
      rcases enumerateAdapters_ok _ _ _ _ hr with ⟨h, -⟩ | ⟨a, h, hmem, hel, hpos, -⟩
      · exact Or.inl h
      · right
        have he := (eligible_iff a).mp hel
        exact ⟨a, h, hmem, he.1, by simpa [SUCCEEDED] using he.2, hpos⟩
    · have : env.createFactory < 0 := not_le.mp hf
      simp [GetAdapter_, ThrowIfFailed, FAILED, this] at hr
  · intro hf hall
    rw [GetAdapter__enumerate env hf]
    exact enumerateAdapters_none_above _ _ _ (fun b hb he => le_of_eq (hall b hb he))

/-- On the sample machine `GetAdapter_` returns a hardware adapter with
non-zero dedicated memory; on the shared-memory machine it returns null. -/
theorem GetAdapter__null_or_hardware_witness :
    (GetAdapter_ Env.sample false = .ok (some discreteGpu) ∧
      (some discreteGpu = none ∨
        ∃ a, some discreteGpu = some a ∧ a ∈ Env.sample.adapters ∧
          (a.Flags &&& DXGI_ADAPTER_FLAG_SOFTWARE) = 0 ∧ SUCCEEDED a.probe = true ∧
          0 < a.DedicatedVideoMemory)) ∧
    GetAdapter_ Env.sharedOnly false = .ok none :=
  ⟨⟨by decide, (GetAdapter__null_or_hardware Env.sample).1 _ (by decide)⟩,
   (GetAdapter__null_or_hardware Env.sharedOnly).2 (by decide) (by decide)⟩

/-! ## Sample states -/

theorem started_ok :
    (Init Env.sample sampleInstance "DirectEcs" 1280 720 true false World.fresh).1 = .ok () := by
  decide

theorem started_initialized : Initialized World.started.app := by
  decide

/-! ## Command queues -/

/-- C5: after `CreateCommandQueues_`, `GetCommandQueue` returns for each of
`DIRECT`, `COMPUTE` and `COPY` the queue that the call constructed with that
type, and the three queues are pairwise distinct instances. -/
theorem GetCommandQueue_after_CreateCommandQueues_ (env : Env) (w : World) :
    ∃ direct compute copy new,
      (CreateCommandQueues_ w).trace = w.trace ++ new ∧
      [Event.CommandQueueCtor direct, Event.CommandQueueCtor compute,
        Event.CommandQueueCtor copy].Sublist new ∧
      direct.type = .DIRECT ∧ compute.type = .COMPUTE ∧ copy.type = .COPY ∧
      GetCommandQueue env (CreateCommandQueues_ w).app .DIRECT = .ok (some direct) ∧
      GetCommandQueue env (CreateCommandQueues_ w).app .COMPUTE = .ok (some compute) ∧
      GetCommandQueue env (CreateCommandQueues_ w).app .COPY = .ok (some copy) ∧
      direct ≠ compute ∧ direct ≠ copy ∧ compute ≠ copy ∧
      direct.id ≠ compute.id ∧ direct.id ≠ copy.id ∧ compute.id ≠ copy.id := by
  refine ⟨{ id := w.nextObject, type := .DIRECT }, { id := w.nextObject + 1, type := .COMPUTE },
    { id := w.nextObject + 2, type := .COPY },
    [] ++ .CommandQueueCtor { id := w.nextObject, type := .DIRECT } ::
      (w.app.directCommandQueue_.toList.map .CommandQueueDtor ++
        .CommandQueueCtor { id := w.nextObject + 1, type := .COMPUTE } ::
      (w.app.computeCommandQueue_.toList.map .CommandQueueDtor ++
        .CommandQueueCtor { id := w.nextObject + 2, type := .COPY } ::
      (w.app.copyCommandQueue_.toList.map .CommandQueueDtor))),
    ?_, ?_, rfl, rfl, rfl, ?_, ?_, ?_, by simp, by simp, by simp, by simp, by simp, by simp⟩
  · rw [CreateCommandQueues__eq]
    simp [List.append_assoc]
  · exact sublist_step _ _ (sublist_step _ _ (sublist_step _ _ (List.nil_sublist _)))
  · rw [CreateCommandQueues__eq]
    rfl
  · rw [CreateCommandQueues__eq]
    rfl
  · rw [CreateCommandQueues__eq]
    rfl

/-! ## `Init` called again -/

/-- C1, as stated, fails on the code: on the sample machine a first `Init`
completes, and a second `Init` with the same arguments creates the device, the
three command queues and the window again and leaves a different application
state. -/
theorem Init_again_not_guarded :
    (Init Env.sample sampleInstance "DirectEcs" 1280 720 true false World.fresh).1 = .ok () ∧
    World.started.app.isInitialized_ = true ∧
    (Init Env.again sampleInstance "DirectEcs" 1280 720 true false World.started).2.trace =
      World.started.trace ++
        [.SetThreadDpiAwarenessContext,
         .ReleaseDevice { id := 0, adapter := some discreteGpu },
         .D3D12CreateDevice (some discreteGpu) 0,
         .CommandQueueCtor { id := 6, type := .DIRECT },
         .CommandQueueDtor { id := 1, type := .DIRECT },
         .CommandQueueCtor { id := 7, type := .COMPUTE },
         .CommandQueueDtor { id := 2, type := .COMPUTE },
         .CommandQueueCtor { id := 8, type := .COPY },
         .CommandQueueDtor { id := 3, type := .COPY },
         .RegisterClassExW 0,
         .MessageBoxA "Unable to register the window class." "Error",
         .CreateWindowW "DirectEcs" 1296 759 sampleInstance 132456,
         .WindowCtor { id := 9, windowHandle := 132456, clientWidth := 1280,
                       clientHeight := 720, useVsync := true },
         .WindowDtor { id := 4, windowHandle := 132456, clientWidth := 1280,
                       clientHeight := 720, useVsync := true },
         .LoggerInit] ∧
    (Init Env.again sampleInstance "DirectEcs" 1280 720 true false World.started).2.app ≠
      World.started.app ∧
    ¬ (∀ (env : Env) (w : World), Initialized w.app →
        (Init env sampleInstance "DirectEcs" 1280 720 true false w).2 = w) := by
  refine ⟨by decide, by decide, by decide, by decide, ?_⟩
  intro h
  exact absurd (h Env.again World.started started_initialized) (by decide)

/-- C1, amended: `Init` has no guard against re-initialization. Every call to
`Init` that completes, in particular one on an application on which `Init` has
already completed, performs device creation, the creation of the three command
queues and window creation, in this order, stores the newly created device,
queues and window in the application, and leaves `isInitialized_` true. -/
theorem Init_runs_setup_each_time (env : Env) (hInstance : Nat) (windowName : String)
    (clientWidth clientHeight : Nat) (useVsync useWarp : Bool) (w : World)
    (h : (Init env hInstance windowName clientWidth clientHeight useVsync useWarp w).1 =
      .ok ()) :
    ∃ adapter nWidth nHeight new w',
      Init env hInstance windowName clientWidth clientHeight useVsync useWarp w = (.ok (), w') ∧
      w'.trace = w.trace ++ new ∧
      [Event.D3D12CreateDevice adapter (env.createDevice adapter),
        Event.CommandQueueCtor { id := w.nextObject + 1, type := .DIRECT },
        Event.CommandQueueCtor { id := w.nextObject + 2, type := .COMPUTE },
        Event.CommandQueueCtor { id := w.nextObject + 3, type := .COPY },
        Event.RegisterClassExW env.registerClass,
        Event.CreateWindowW windowName nWidth nHeight hInstance env.createWindow,
        Event.WindowCtor { id := w.nextObject + 4, windowHandle := env.createWindow,
                           clientWidth := clientWidth, clientHeight := clientHeight,
                           useVsync := useVsync }].Sublist new ∧
      0 ≤ env.createDevice adapter ∧
      w'.app =
        { d3d12Device_ := some { id := w.nextObject, adapter := adapter }
          directCommandQueue_ := some { id := w.nextObject + 1, type := .DIRECT }
          computeCommandQueue_ := some { id := w.nextObject + 2, type := .COMPUTE }
          copyCommandQueue_ := some { id := w.nextObject + 3, type := .COPY }
          window_ := some { id := w.nextObject + 4, windowHandle := env.createWindow,
                            clientWidth := clientWidth, clientHeight := clientHeight,
                            useVsync := useVsync }
          isInitialized_ := true } ∧
      w'.nextObject = w.nextObject + 5 := by
  obtain ⟨adapter, a0, a1, nWidth, nHeight, -, hs, heq⟩ :=
    Init_success env hInstance windowName clientWidth clientHeight useVsync useWarp w h
  refine ⟨adapter, nWidth, nHeight, _, _, heq, rfl, ?_, hs, rfl, rfl⟩
  exact sublist_step _ _ (sublist_step _ _ (sublist_step _ _ (sublist_step _ _
    (sublist_step _ _ (sublist_step _ _ (sublist_step _ _ (List.nil_sublist _)))))))

/-- The amended C1 at the second `Init` on the sample machine. -/
theorem Init_runs_setup_each_time_witness :
    Initialized World.started.app ∧
    ∃ adapter nWidth nHeight new w',
      Init Env.again sampleInstance "DirectEcs" 1280 720 true false World.started =
        (.ok (), w') ∧
      w'.trace = World.started.trace ++ new ∧
      [Event.D3D12CreateDevice adapter (Env.again.createDevice adapter),
        Event.CommandQueueCtor { id := World.started.nextObject + 1, type := .DIRECT },
        Event.CommandQueueCtor { id := World.started.nextObject + 2, type := .COMPUTE },
        Event.CommandQueueCtor { id := World.started.nextObject + 3, type := .COPY },
        Event.RegisterClassExW Env.again.registerClass,
        Event.CreateWindowW "DirectEcs" nWidth nHeight sampleInstance Env.again.createWindow,
        Event.WindowCtor { id := World.started.nextObject + 4,
                           windowHandle := Env.again.createWindow,
                           clientWidth := 1280, clientHeight := 720,
                           useVsync := true }].Sublist new ∧
      0 ≤ Env.again.createDevice adapter ∧
      w'.app =
        { d3d12Device_ := some { id := World.started.nextObject, adapter := adapter }
          directCommandQueue_ := some { id := World.started.nextObject + 1, type := .DIRECT }
          computeCommandQueue_ := some { id := World.started.nextObject + 2, type := .COMPUTE }
          copyCommandQueue_ := some { id := World.started.nextObject + 3, type := .COPY }
          window_ := some { id := World.started.nextObject + 4,
                            windowHandle := Env.again.createWindow,
                            clientWidth := 1280, clientHeight := 720, useVsync := true }
          isInitialized_ := true } ∧
      w'.nextObject = World.started.nextObject + 5 :=
  ⟨by decide,
   Init_runs_setup_each_time Env.again sampleInstance "DirectEcs" 1280 720 true false
     World.started (by decide)⟩

/-! ## Startup failures -/

/-- C7: when adapter acquisition (factory creation included) or device creation
fails inside `Init`, `Init` leaves with that failure, only calls of the device
stage have been made (no command queue is constructed, no window class
registered, no window created), the queue and window members and
`isInitialized_` are as before, and on an application that was not initialized
before a subsequent `Exec` returns `EXIT_FAILURE` without starting the window
or pumping a message. -/
theorem Init_device_failure_aborts (env : Env) (hInstance : Nat) (windowName : String)
    (clientWidth clientHeight : Nat) (useVsync useWarp : Bool) (w : World) (f : Failure)
    (hdbg : env.debug = true → 0 ≤ env.getDebugInterface)
    (hfail : GetAdapter_ env useWarp = .error f ∨
      ∃ a, GetAdapter_ env useWarp = .ok a ∧ env.createDevice a < 0 ∧
        f = .hresult (env.createDevice a)) :
    ∃ w' new,
      Init env hInstance windowName clientWidth clientHeight useVsync useWarp w =
        (.error f, w') ∧
      w'.trace = w.trace ++ new ∧
      (∀ e ∈ new, e.isDeviceStage = true ∧ e.isQueueCreation = false ∧
        e.isWindowCreation = false ∧ e ≠ .LoggerInit) ∧
      w'.nextObject = w.nextObject ∧
      w'.app.directCommandQueue_ = w.app.directCommandQueue_ ∧
      w'.app.computeCommandQueue_ = w.app.computeCommandQueue_ ∧
      w'.app.copyCommandQueue_ = w.app.copyCommandQueue_ ∧
      w'.app.window_ = w.app.window_ ∧
      w'.app.isInitialized_ = w.app.isInitialized_ ∧
      (w.app.isInitialized_ = false →
        ∀ polls, Exec w' polls = (.returned EXIT_FAILURE, w', polls)) := by
  have hdl := enableDebugLayer_ok env (w.emit [.SetThreadDpiAwarenessContext]) hdbg
  rw [World.emit_emit] at hdl
  obtain ⟨w', new, heq, htr, hnew, hn, hd, hc, hp, hw, hi⟩ :=
    CreateDevice__failure env useWarp (w.emit ([.SetThreadDpiAwarenessContext] ++
      if env.debug then [.EnableDebugLayer] else [])) f hfail
  refine ⟨w', ([.SetThreadDpiAwarenessContext] ++
      if env.debug then [.EnableDebugLayer] else []) ++ new, ?_, ?_, ?_, hn, hd, hc, hp, hw,
    hi, ?_⟩
  · simp only [Init, hdl, heq]
  · rw [htr]
    simp [List.append_assoc]
  · intro e he
    have hstage : e.isDeviceStage = true := by
      rcases List.mem_append.mp he with he | he
      · by_cases hdb : env.debug = true
        · simp [hdb] at he
          rcases he with rfl | rfl <;> rfl
        · simp [hdb] at he
          subst he
          rfl
      · exact hnew e he
    cases e <;> simp_all [Event.isDeviceStage, Event.isQueueCreation, Event.isWindowCreation]
  · intro hni polls
    have : w'.app.isInitialized_ = false := by rw [hi]; exact hni
    simp [Exec, this]

/-- C7 on a machine where device creation on the selected adapter fails with
`DXGI_ERROR_UNSUPPORTED`: the first `Init` throws and `Exec` then returns
`EXIT_FAILURE`. -/
theorem Init_device_failure_aborts_witness :
    ∃ w' new,
      Init { Env.sample with createDevice := fun _ => -2005270524 } sampleInstance "DirectEcs"
          1280 720 true false World.fresh = (.error (.hresult (-2005270524)), w') ∧
      w'.trace = World.fresh.trace ++ new ∧
      (∀ e ∈ new, e.isDeviceStage = true ∧ e.isQueueCreation = false ∧
        e.isWindowCreation = false ∧ e ≠ .LoggerInit) ∧
      w'.nextObject = World.fresh.nextObject ∧
      w'.app.directCommandQueue_ = World.fresh.app.directCommandQueue_ ∧
      w'.app.computeCommandQueue_ = World.fresh.app.computeCommandQueue_ ∧
      w'.app.copyCommandQueue_ = World.fresh.app.copyCommandQueue_ ∧
      w'.app.window_ = World.fresh.app.window_ ∧
      w'.app.isInitialized_ = World.fresh.app.isInitialized_ ∧
      (World.fresh.app.isInitialized_ = false →
        ∀ polls, Exec w' polls = (.returned EXIT_FAILURE, w', polls)) :=
  Init_device_failure_aborts { Env.sample with createDevice := fun _ => -2005270524 }
    sampleInstance "DirectEcs" 1280 720 true false World.fresh (.hresult (-2005270524))
    (by decide) (Or.inr ⟨some discreteGpu, by decide, by decide, rfl⟩)

/-! ## Window creation -/

/-- C8: whenever `RegisterClassExW` fails, `CreateWindow_` shows exactly one
message box for it, then still makes the window-creation call and constructs
the `Window` object, which it stores in `window_`; it completes (the function
has no failing or early exit). -/
theorem CreateWindow__registration_failure (env : Env) (hInstance : Nat)
    (windowName : String) (clientWidth clientHeight : Nat) (useVsync : Bool) (w : World)
    (hreg : env.registerClass = 0) :
    ∃ new nWidth nHeight window,
      (CreateWindow_ env hInstance windowName clientWidth clientHeight useVsync w).trace =
        w.trace ++ new ∧
      new.count (.MessageBoxA "Unable to register the window class." "Error") = 1 ∧
      [Event.RegisterClassExW 0,
        Event.MessageBoxA "Unable to register the window class." "Error",
        Event.CreateWindowW windowName nWidth nHeight hInstance env.createWindow,
        Event.WindowCtor window].Sublist new ∧
      window.windowHandle = env.createWindow ∧ window.clientWidth = clientWidth ∧
      window.clientHeight = clientHeight ∧ window.useVsync = useVsync ∧
      (CreateWindow_ env hInstance windowName clientWidth clientHeight useVsync w).app.window_ =
        some window := by
  refine ⟨[] ++ .RegisterClassExW 0 :: ([] ++
      .MessageBoxA "Unable to register the window class." "Error" :: ([] ++
      .CreateWindowW windowName
        ((env.adjustWindowRect ⟨0, 0, toLONG clientWidth, toLONG clientHeight⟩).right -
          (env.adjustWindowRect ⟨0, 0, toLONG clientWidth, toLONG clientHeight⟩).left)
        ((env.adjustWindowRect ⟨0, 0, toLONG clientWidth, toLONG clientHeight⟩).bottom -
          (env.adjustWindowRect ⟨0, 0, toLONG clientWidth, toLONG clientHeight⟩).top)
        hInstance env.createWindow ::
      ((if env.createWindow = 0 then
          [.MessageBoxA "Could not create the render window." "Error"] else []) ++
      .WindowCtor { id := w.nextObject, windowHandle := env.createWindow,
                    clientWidth := clientWidth, clientHeight := clientHeight,
                    useVsync := useVsync } ::
      w.app.window_.toList.map .WindowDtor))),
    (env.adjustWindowRect ⟨0, 0, toLONG clientWidth, toLONG clientHeight⟩).right -
      (env.adjustWindowRect ⟨0, 0, toLONG clientWidth, toLONG clientHeight⟩).left,
    (env.adjustWindowRect ⟨0, 0, toLONG clientWidth, toLONG clientHeight⟩).bottom -
      (env.adjustWindowRect ⟨0, 0, toLONG clientWidth, toLONG clientHeight⟩).top,
    { id := w.nextObject, windowHandle := env.createWindow, clientWidth := clientWidth,
      clientHeight := clientHeight, useVsync := useVsync },
    ?_, ?_, ?_, rfl, rfl, rfl, rfl, ?_⟩
  · rw [CreateWindow__eq]
    simp [hreg, List.append_assoc]
  · cases w.app.window_ <;> by_cases h2 : env.createWindow = 0 <;>
      simp [List.count_cons, h2]
  · exact sublist_step _ _ (sublist_step _ _ (sublist_step _ _ (sublist_step _ _
      (List.nil_sublist _))))
  · rw [CreateWindow__eq]

/-- C8 on the sample machine at a second `Init`, where the class is registered
already. -/
theorem CreateWindow__registration_failure_witness :
    (CreateWindow_ Env.again sampleInstance "DirectEcs" 1280 720 true World.started).trace =
      World.started.trace ++
        [.RegisterClassExW 0,
         .MessageBoxA "Unable to register the window class." "Error",
         .CreateWindowW "DirectEcs" 1296 759 sampleInstance 132456,
         .WindowCtor { id := 5, windowHandle := 132456, clientWidth := 1280,
                       clientHeight := 720, useVsync := true },
         .WindowDtor { id := 4, windowHandle := 132456, clientWidth := 1280,
                       clientHeight := 720, useVsync := true }] ∧
    ∃ new nWidth nHeight window,
      (CreateWindow_ Env.again sampleInstance "DirectEcs" 1280 720 true World.started).trace =
        World.started.trace ++ new ∧
      new.count (.MessageBoxA "Unable to register the window class." "Error") = 1 ∧
      [Event.RegisterClassExW 0,
        Event.MessageBoxA "Unable to register the window class." "Error",
        Event.CreateWindowW "DirectEcs" nWidth nHeight sampleInstance Env.again.createWindow,
        Event.WindowCtor window].Sublist new ∧
      window.windowHandle = Env.again.createWindow ∧ window.clientWidth = 1280 ∧
      window.clientHeight = 720 ∧ window.useVsync = true ∧
      (CreateWindow_ Env.again sampleInstance "DirectEcs" 1280 720 true World.started).app.window_ =
        some window :=
  ⟨by decide,
   CreateWindow__registration_failure Env.again sampleInstance "DirectEcs" 1280 720 true
     World.started (by decide)⟩

/-! ## `Flush` -/

/-- C2: on an initialized application one call to `Flush` returns having called
`Flush` on the direct queue, on the compute queue and on the copy queue, each
exactly once and in this order, and having made no other call; the application
state is as before. -/
theorem Flush_flushes_each_queue_once (w : World) (hinit : Initialized w.app) :
    ∃ direct compute copy,
      w.app.directCommandQueue_ = some direct ∧ direct.type = .DIRECT ∧
      w.app.computeCommandQueue_ = some compute ∧ compute.type = .COMPUTE ∧
      w.app.copyCommandQueue_ = some copy ∧ copy.type = .COPY ∧
      Flush w = (.ok (), w.emit [.CommandQueueFlush direct, .CommandQueueFlush compute,
        .CommandQueueFlush copy]) ∧
      [Event.CommandQueueFlush direct, Event.CommandQueueFlush compute,
        Event.CommandQueueFlush copy].count (.CommandQueueFlush direct) = 1 ∧
      [Event.CommandQueueFlush direct, Event.CommandQueueFlush compute,
        Event.CommandQueueFlush copy].count (.CommandQueueFlush compute) = 1 ∧
      [Event.CommandQueueFlush direct, Event.CommandQueueFlush compute,
        Event.CommandQueueFlush copy].count (.CommandQueueFlush copy) = 1 ∧
      (Flush w).2.app = w.app := by
  obtain ⟨-, direct, compute, copy, window, hd, hc, hp, -, td, tc, tp, n1, n2, n3⟩ :=
    hinit.members
  have e1 : direct ≠ compute := fun h => n1 (by rw [h])
  have e2 : direct ≠ copy := fun h => n2 (by rw [h])
  have e3 : compute ≠ copy := fun h => n3 (by rw [h])
  refine ⟨direct, compute, copy, hd, td, hc, tc, hp, tp,
    Flush_of_queues w direct compute copy hd hc hp, ?_, ?_, ?_, ?_⟩
  · simp [List.count_cons, e1.symm, e2.symm]
  · simp [List.count_cons, e1, e3.symm]
  · simp [List.count_cons, e2, e3]
  · rw [Flush_of_queues w direct compute copy hd hc hp]
    rfl

/-- C2 on the application started on the sample machine. -/
theorem Flush_flushes_each_queue_once_witness :
    Initialized World.started.app ∧
    Flush World.started =
      (.ok (), World.started.emit
        [.CommandQueueFlush { id := 1, type := .DIRECT },
         .CommandQueueFlush { id := 2, type := .COMPUTE },
         .CommandQueueFlush { id := 3, type := .COPY }]) ∧
    ∃ direct compute copy,
      World.started.app.directCommandQueue_ = some direct ∧ direct.type = .DIRECT ∧
      World.started.app.computeCommandQueue_ = some compute ∧ compute.type = .COMPUTE ∧
      World.started.app.copyCommandQueue_ = some copy ∧ copy.type = .COPY ∧
      Flush World.started = (.ok (), World.started.emit [.CommandQueueFlush direct,
        .CommandQueueFlush compute, .CommandQueueFlush copy]) ∧
      [Event.CommandQueueFlush direct, Event.CommandQueueFlush compute,
        Event.CommandQueueFlush copy].count (.CommandQueueFlush direct) = 1 ∧
      [Event.CommandQueueFlush direct, Event.CommandQueueFlush compute,
        Event.CommandQueueFlush copy].count (.CommandQueueFlush compute) = 1 ∧
      [Event.CommandQueueFlush direct, Event.CommandQueueFlush compute,
        Event.CommandQueueFlush copy].count (.CommandQueueFlush copy) = 1 ∧
      (Flush World.started).2.app = World.started.app :=
  ⟨by decide, by decide, Flush_flushes_each_queue_once World.started (by decide)⟩

/-! ## `Exec` -/

/-- C9: `Exec` on an application whose `isInitialized_` is false returns
`EXIT_FAILURE` and does nothing else: the state and the trace of calls are as
before (no `Window::Start`, no message retrieved or dispatched, no queue
flushed, no `Window::Destroy`) and no `PeekMessage` answer is consumed. -/
theorem Exec_not_initialized (w : World) (polls : List (Option MSG))
    (h : w.app.isInitialized_ = false) :
    Exec w polls = (.returned EXIT_FAILURE, w, polls) ∧ EXIT_FAILURE = 1 := by
  simp [Exec, h, EXIT_FAILURE]

/-- C9 on the application before any `Init`. -/
theorem Exec_not_initialized_witness :
    World.fresh.app.isInitialized_ = false ∧
    Exec World.fresh samplePolls = (.returned EXIT_FAILURE, World.fresh, samplePolls) ∧
    EXIT_FAILURE = 1 :=
  ⟨rfl, Exec_not_initialized World.fresh samplePolls rfl⟩

/-- C3: in `Exec` on an initialized application, when the `PeekMessage` answers
contain a `WM_QUIT` message, `Exec` returns and the last four calls it made are
`Flush` on the direct, compute and copy queues followed by `Window::Destroy`,
with no `Window::Destroy` before them; when the answers contain no `WM_QUIT`
message, `Exec` is still pumping and has made no `Window::Destroy` call. -/
theorem Exec_flushes_before_destroy (w : World) (hinit : Initialized w.app)
    (polls : List (Option MSG)) :
    ∃ direct compute copy window,
      w.app.directCommandQueue_ = some direct ∧ w.app.computeCommandQueue_ = some compute ∧
      w.app.copyCommandQueue_ = some copy ∧ w.app.window_ = some window ∧
      ((∃ p ∈ polls, isQuit p = true) →
        ∃ status pre rest,
          Exec w polls =
            (.returned status,
             w.emit (pre ++ [.CommandQueueFlush direct, .CommandQueueFlush compute,
               .CommandQueueFlush copy, .WindowDestroy window]),
             rest) ∧
          ∀ e ∈ pre, e.isWindowDestroy = false ∧ e.isFlush = false) ∧
      ((∀ p ∈ polls, isQuit p = false) →
        ∃ new, Exec w polls = (.pumping, w.emit new, []) ∧
          ∀ e ∈ new, e.isWindowDestroy = false) := by
  obtain ⟨hi, direct, compute, copy, window, hd, hc, hp, hw, -⟩ := hinit.members
  refine ⟨direct, compute, copy, window, hd, hc, hp, hw, ?_, ?_⟩
  · intro hquit
    obtain ⟨pre, q, rest, hsplit, hpre, hq⟩ := exists_first_quit polls hquit
    refine ⟨toInt q.wParam, .WindowStart window :: (pre ++ [some q]).flatMap pollEvents, rest,
      ?_, ?_⟩
    · rw [hsplit, Exec_first_quit w direct compute copy window hi hd hc hp hw pre q rest hpre hq]
    · intro e he
      rcases List.mem_cons.mp he with rfl | he
      · exact ⟨rfl, rfl⟩
      · exact pollEvents_not_destroy _ e he
  · intro hall
    refine ⟨.WindowStart window :: polls.flatMap pollEvents,
      Exec_no_quit w window hi hw polls hall, ?_⟩
    intro e he
    rcases List.mem_cons.mp he with rfl | he
    · rfl
    · exact (pollEvents_not_destroy _ e he).1

/-- C3 on the application started on the sample machine, for answers with and
without a `WM_QUIT` message. -/
theorem Exec_flushes_before_destroy_witness :
    Initialized World.started.app ∧ (∃ p ∈ samplePolls, isQuit p = true) ∧
    (∀ p ∈ idlePolls, isQuit p = false) ∧
    (∃ direct compute copy window,
      World.started.app.directCommandQueue_ = some direct ∧
      World.started.app.computeCommandQueue_ = some compute ∧
      World.started.app.copyCommandQueue_ = some copy ∧
      World.started.app.window_ = some window ∧
      ((∃ p ∈ samplePolls, isQuit p = true) →
        ∃ status pre rest,
          Exec World.started samplePolls =
            (.returned status,
             World.started.emit (pre ++ [.CommandQueueFlush direct, .CommandQueueFlush compute,
               .CommandQueueFlush copy, .WindowDestroy window]),
             rest) ∧
          ∀ e ∈ pre, e.isWindowDestroy = false ∧ e.isFlush = false) ∧
      ((∀ p ∈ samplePolls, isQuit p = false) →
        ∃ new, Exec World.started samplePolls = (.pumping, World.started.emit new, []) ∧
          ∀ e ∈ new, e.isWindowDestroy = false)) ∧
    (∃ direct compute copy window,
      World.started.app.directCommandQueue_ = some direct ∧
      World.started.app.computeCommandQueue_ = some compute ∧
      World.started.app.copyCommandQueue_ = some copy ∧
      World.started.app.window_ = some window ∧
      ((∃ p ∈ idlePolls, isQuit p = true) →
        ∃ status pre rest,
          Exec World.started idlePolls =
            (.returned status,
             World.started.emit (pre ++ [.CommandQueueFlush direct, .CommandQueueFlush compute,
               .CommandQueueFlush copy, .WindowDestroy window]),
             rest) ∧
          ∀ e ∈ pre, e.isWindowDestroy = false ∧ e.isFlush = false) ∧
      ((∀ p ∈ idlePolls, isQuit p = false) →
        ∃ new, Exec World.started idlePolls = (.pumping, World.started.emit new, []) ∧
          ∀ e ∈ new, e.isWindowDestroy = false)) :=
  ⟨by decide, by decide, by decide,
   Exec_flushes_before_destroy World.started (by decide) samplePolls,
   Exec_flushes_before_destroy World.started (by decide) idlePolls⟩

/-- C4: `Exec` on an initialized application, given `PeekMessage` answers whose
first `WM_QUIT` message is at position `k`, returns the `wParam` of that
message converted to `int`; it has consumed the answers up to and including
position `k` and none after it, and the calls it made are `Window::Start`, the
pump calls for those answers, the three queue flushes and `Window::Destroy`. -/
theorem Exec_returns_wParam_of_first_quit (w : World) (hinit : Initialized w.app)
    (polls : List (Option MSG)) (k : Nat) (q : MSG)
    (hk : polls[k]? = some (some q)) (hq : q.message = WM_QUIT)
    (hfirst : ∀ j, j < k → ∀ m, polls[j]? = some (some m) → m.message ≠ WM_QUIT) :
    ∃ direct compute copy window,
      w.app.directCommandQueue_ = some direct ∧ w.app.computeCommandQueue_ = some compute ∧
      w.app.copyCommandQueue_ = some copy ∧ w.app.window_ = some window ∧
      Exec w polls =
        (.returned (toInt q.wParam),
         w.emit (.WindowStart window :: (polls.take (k + 1)).flatMap pollEvents ++
           [.CommandQueueFlush direct, .CommandQueueFlush compute, .CommandQueueFlush copy,
            .WindowDestroy window]),
         polls.drop (k + 1)) := by
  obtain ⟨hi, direct, compute, copy, window, hd, hc, hp, hw, -⟩ := hinit.members
  obtain ⟨hsplit, hpre⟩ := split_at_first_quit polls k q hk hfirst
  refine ⟨direct, compute, copy, window, hd, hc, hp, hw, ?_⟩
  have htake : polls.take (k + 1) = polls.take k ++ [some q] := by
    rw [List.take_succ, hk]
    rfl
  rw [htake]
  conv_lhs => rw [hsplit]
  exact Exec_first_quit w direct compute copy window hi hd hc hp hw _ q _ hpre hq

/-- C4 on the application started on the sample machine: the first `WM_QUIT`
is at position 3 with `wParam = 2^64 - 1`, `Exec` returns `-1` and leaves the
two later answers unread. -/
theorem Exec_returns_wParam_of_first_quit_witness :
    Initialized World.started.app ∧
    Exec World.started samplePolls =
      (.returned (-1),
       World.started.emit
         [.WindowStart { id := 4, windowHandle := 132456, clientWidth := 1280,
                         clientHeight := 720, useVsync := true },
          .PeekMessage none,
          .PeekMessage (some { message := 15, wParam := 0, lParam := 0 }),
          .TranslateMessage { message := 15, wParam := 0, lParam := 0 },
          .DispatchMessage { message := 15, wParam := 0, lParam := 0 },
          .PeekMessage none,
          .PeekMessage (some { message := 18, wParam := 18446744073709551615, lParam := 0 }),
          .TranslateMessage { message := 18, wParam := 18446744073709551615, lParam := 0 },
          .DispatchMessage { message := 18, wParam := 18446744073709551615, lParam := 0 },
          .CommandQueueFlush { id := 1, type := .DIRECT },
          .CommandQueueFlush { id := 2, type := .COMPUTE },
          .CommandQueueFlush { id := 3, type := .COPY },
          .WindowDestroy { id := 4, windowHandle := 132456, clientWidth := 1280,
                           clientHeight := 720, useVsync := true }],
       [some { message := 15, wParam := 0, lParam := 0 },
        some { message := 18, wParam := 7, lParam := 0 }]) ∧
    ∃ direct compute copy window,
      World.started.app.directCommandQueue_ = some direct ∧
      World.started.app.computeCommandQueue_ = some compute ∧
      World.started.app.copyCommandQueue_ = some copy ∧
      World.started.app.window_ = some window ∧
      Exec World.started samplePolls =
        (.returned (toInt 18446744073709551615),
         World.started.emit (.WindowStart window :: (samplePolls.take (3 + 1)).flatMap pollEvents ++
           [.CommandQueueFlush direct, .CommandQueueFlush compute, .CommandQueueFlush copy,
            .WindowDestroy window]),
         samplePolls.drop (3 + 1)) :=
  ⟨by decide, by decide,
   Exec_returns_wParam_of_first_quit World.started (by decide) samplePolls 3
     { message := 18, wParam := 18446744073709551615, lParam := 0 } (by decide) (by decide)
     (by
       intro j hj m hm
       interval_cases j
       · simp [samplePolls] at hm
       · simp [samplePolls] at hm
         subst hm
         decide
       · simp [samplePolls] at hm)⟩

end DirectEcs
